import Mathlib

/-!
# Verification of the watermark service (`app/services.py`, `app/main.py`)

A shallow embedding of the watermark compositor and its HTTP boundary.
Pure arithmetic (font sizing, stroke scaling, margins, the tiling grid)
is translated directly from the Python source; the graphics library
(Pillow) is modelled by an abstract environment `GfxEnv` providing the
operations the code consumes (decoding, text measurement, rotated canvas
size, font-file probing), together with the library facts the code
relies on (rotation by 90/270 degrees with `expand=True` swaps width and
height; the JPEG encoder rejects a zero-area raster).

Machine integers: Python integers are unbounded, so `Nat`/`Int` model
them exactly.  Python `//` on non-negative values is `Nat` division;
`int(x * 1.5)` and `int(4 * x / 72)` on non-negative integers `x` are
`3 * x / 2` and `4 * x / 72` in `Nat` arithmetic (the float products
involved are exact or far from integer boundaries for all feasible
sizes).
-/

/-! ## Module constants (`services.py` lines 16-45) -/

/-- `DEFAULT_WATERMARK_TEXT = "Sample"` (line 16). -/
def DEFAULT_WATERMARK_TEXT : String := "Sample"

/-- `SIZE_THRESHOLD = 1000` (line 20). -/
def SIZE_THRESHOLD : Nat := 1000

/-- `FIXED_FONT_SIZE = 72` (line 23). -/
def FIXED_FONT_SIZE : Nat := 72

/-- `RELATIVE_FONT_DIVISOR = 8` (line 27). -/
def RELATIVE_FONT_DIVISOR : Nat := 8

/-- `MIN_FONT_SIZE = 24` (line 30). -/
def MIN_FONT_SIZE : Nat := 24

/-- `STROKE_WIDTH = 4` (line 38). -/
def STROKE_WIDTH : Nat := 4

/-! ## Font-size resolution (`get_font_size`, lines 48-63) -/

/-- `get_font_size(width, height)`: if both dimensions exceed
`SIZE_THRESHOLD` return `FIXED_FONT_SIZE`; otherwise
`max(min(width, height) // RELATIVE_FONT_DIVISOR, MIN_FONT_SIZE)`. -/
def get_font_size (width height : Nat) : Nat :=
  if SIZE_THRESHOLD < width ∧ SIZE_THRESHOLD < height then
    FIXED_FONT_SIZE
  else
    max (min width height / RELATIVE_FONT_DIVISOR) MIN_FONT_SIZE

/-! ## Watermark-text defaulting (`add_watermark` lines 107-109) -/

/-- Python `str.strip()` whitespace test, restricted to the ASCII
whitespace characters (space, tab, newline, carriage return, vertical
tab, form feed). -/
def isPySpace (c : Char) : Bool :=
  c = ' ' || c = '\t' || c = '\n' || c = '\r' || c = '\x0b' || c = '\x0c'

/-- Python `watermark_text.strip()`: remove leading and trailing
whitespace. -/
def pyStrip (s : String) : String :=
  String.mk (((s.data.dropWhile isPySpace).reverse.dropWhile isPySpace).reverse)

/-- Lines 107-109: `if watermark_text is None or watermark_text.strip() == "":
watermark_text = DEFAULT_WATERMARK_TEXT`.  `none` models a Python `None`
argument. -/
def resolveText (watermark_text : Option String) : String :=
  match watermark_text with
  | none => DEFAULT_WATERMARK_TEXT
  | some s => if pyStrip s = "" then DEFAULT_WATERMARK_TEXT else s

/-! ## Font loading (`load_font`, lines 66-85) -/

/-- A Pillow font object: either a TrueType font loaded from a path at a
size, or the built-in bitmap default returned by
`ImageFont.load_default()`. -/
inductive PILFont where
  | truetype (path : String) (size : Nat)
  | load_default
deriving DecidableEq

/-- The candidate font paths tried in order (lines 72-76). -/
def font_paths : List String :=
  ["arial.ttf",
   "/usr/share/fonts/truetype/dejavu/DejaVuSans.ttf",
   "/usr/share/fonts/truetype/dejavu/DejaVuSans-Bold.ttf"]

/-- The `for font_path in font_paths` loop (lines 78-82): try each path,
returning the first whose `ImageFont.truetype` call succeeds (failures
raise `OSError`/`IOError`, caught and skipped).  `fontExists p = true`
models a successful load at path `p`. -/
def tryFontPaths (fontExists : String → Bool) (font_size : Nat) :
    List String → PILFont
  | [] => PILFont.load_default
  | p :: rest =>
    if fontExists p then PILFont.truetype p font_size
    else tryFontPaths fontExists font_size rest

/-- `load_font(font_size)` (lines 66-85): the path search followed by the
`ImageFont.load_default()` fallback (line 85), which never raises. -/
def load_font (fontExists : String → Bool) (font_size : Nat) : PILFont :=
  tryFontPaths fontExists font_size font_paths

/-! ## Images, EXIF orientation (`add_watermark` lines 111-136) -/

/-- Pillow image modes distinguished by the code (`'RGBA'`, `'RGB'`, and
anything else). -/
inductive ImageMode where
  | RGBA
  | RGB
  | other
deriving DecidableEq

/-- The EXIF state of a decoded image, as observed through
`img._getexif()` inside the `try` block of lines 115-130:
`noExif` = `_getexif()` returns `None`; `raisesCaught` = the access
raises one of the caught exception types (`AttributeError`, `KeyError`,
`IndexError`, `TypeError`); `entries v` = an EXIF dictionary whose
`Orientation` entry is `v` (`none` when the key is missing, in which
case `dict.get` returns `None`). -/
inductive ExifData where
  | noExif
  | raisesCaught
  | entries (orientationValue : Option Nat)
deriving DecidableEq

/-- A decoded raster as the code observes it: pixel dimensions, mode,
and EXIF state.  Pixel contents are owned by the graphics library and
are not inspected by the tiling logic, so they are not modelled. -/
structure Img where
  width : Nat
  height : Nat
  mode : ImageMode
  exif : ExifData
deriving DecidableEq

/-- Pillow `Image.rotate(angle, expand=True)` size behaviour for the
right angles used by the code: 90 and 270 degrees swap width and height,
180 degrees keeps them. -/
def rotate_expand (angle : Nat) (img : Img) : Img :=
  if angle = 90 ∨ angle = 270 then
    { img with width := img.height, height := img.width }
  else img

/-- The `if/elif` chain of lines 122-128 reduced to the rotation angle it
selects: orientation 3 rotates 180, 6 rotates 270, 8 rotates 90, any
other value (or a missing / unreadable tag) rotates nothing.  A caught
exception (`raisesCaught`) falls to `pass` (line 130), also no
rotation. -/
def orientation_rotation (e : ExifData) : Nat :=
  match e with
  | ExifData.entries (some v) =>
    if v = 3 then 180 else if v = 6 then 270 else if v = 8 then 90 else 0
  | _ => 0

/-- The whole EXIF-normalization block (lines 114-130) as a total
function on images: apply the selected rotation; `rotate_expand 0` is
the identity. -/
def apply_exif_orientation (img : Img) : Img :=
  rotate_expand (orientation_rotation img.exif) img

/-- Lines 133-134: `if original_image.mode != 'RGBA':
original_image = original_image.convert('RGBA')`.  Conversion keeps the
pixel dimensions. -/
def to_rgba (img : Img) : Img :=
  if img.mode = ImageMode.RGBA then img else { img with mode := ImageMode.RGBA }

/-! ## Derived sizes (`add_watermark` lines 139-200) -/

/-- Line 142: `stroke_width = max(1, int(STROKE_WIDTH * font_size /
FIXED_FONT_SIZE))`. -/
def stroke_width_of (font_size : Nat) : Nat :=
  max 1 (STROKE_WIDTH * font_size / FIXED_FONT_SIZE)

/-- Line 196: `margin = int(font_size * MARGIN_MULTIPLIER)` with
`MARGIN_MULTIPLIER = 1.5`, i.e. `3 * font_size / 2` rounded down. -/
def watermark_margin (font_size : Nat) : Nat :=
  3 * font_size / 2

/-- Lines 199-200: `spacing_x = rotated_width + margin` (and likewise for
`spacing_y`): grid step = rotated tile dimension plus the font-derived
margin. -/
def spacing_of (rotated_dim font_size : Nat) : Nat :=
  rotated_dim + watermark_margin font_size

/-! ## The tiling loops (`add_watermark` lines 204-224)

The two `while` loops are translated with an explicit fuel argument;
because each iteration advances the coordinate by at least the step
(step ≥ 1 in every reachable configuration, and all lemmas assume it),
fuel `(limit - start).toNat` reproduces the loop exactly. -/

/-- One `while x < limit: ... x += step` loop collecting the visited
coordinates (the inner loop of lines 219-221, also the shape of the
outer loop's y-sequence). -/
def gridAux (limit : Int) (step : Nat) : Nat → Int → List Int
  | 0, _ => []
  | fuel + 1, x =>
    if x < limit then x :: gridAux limit step fuel (x + step)
    else []

/-- The coordinates visited by `while x < limit: ... x += step` started
at `start`. -/
def grid (limit : Int) (step : Nat) (start : Int) : List Int :=
  gridAux limit step (limit - start).toNat start

/-- The outer loop of lines 212-224: rows at
`y = start_y, start_y + spacing_y, ...` while `y < height +
rotated_height`, each row's x-run starting at
`start_x + (row % 2) * (spacing_x // 2)` (line 216-217, the staggered
offset) and running while `x < width + rotated_width`. -/
def rowsAux (width rw sx : Nat) (limit : Int) (sy : Nat) :
    Nat → Int → Nat → List (Int × Int)
  | 0, _, _ => []
  | fuel + 1, y, row =>
    if y < limit then
      ((grid ((width : Int) + rw) sx
          (-(rw : Int) + ((row % 2) * (sx / 2) : Nat))).map fun x => (x, y))
        ++ rowsAux width rw sx limit sy fuel (y + sy) (row + 1)
    else []

/-- All tile origins pasted by lines 204-224: `start_x = -rotated_width`,
`start_y = -rotated_height` (lines 209-210), rows while
`y < height + rotated_height`, columns while `x < width + rotated_width`,
alternate rows shifted right by `spacing_x // 2`. -/
def placements (width height rw rh sx sy : Nat) : List (Int × Int) :=
  rowsAux width rw sx ((height : Int) + rh) sy (height + 2 * rh) (-(rh : Int)) 0

/-- The grid the tiler generates for a given image and rotated-tile size,
with the spacing the code actually computes (lines 193-201). -/
def tiler_placements (width height rw rh : Nat) : List (Int × Int) :=
  placements width height rw rh
    (spacing_of rw (get_font_size width height))
    (spacing_of rh (get_font_size width height))

/-- A tile pasted at origin `p` (with the rotated tile's size `rw × rh`)
covers pixel `(px, py)`. -/
def covers_pixel (p : Int × Int) (rw rh : Nat) (px py : Int) : Prop :=
  p.1 ≤ px ∧ px < p.1 + rw ∧ p.2 ≤ py ∧ py < p.2 + rh

instance (p : Int × Int) (rw rh : Nat) (px py : Int) :
    Decidable (covers_pixel p rw rh px py) := by
  unfold covers_pixel; infer_instance

/-! ## The compositor pipeline (`add_watermark`, lines 88-237) -/

/-- The graphics-library capabilities the code consumes.
`decode` is `Image.open(BytesIO(image_bytes))` (`none` = the raised
decode error); `textSize` is the `(text_width, text_height)` pair taken
from `draw.textbbox((0,0), text, font=font, stroke_width=...)`
(lines 150-156); `rotatedSize` is the size of
`single_watermark.rotate(WATERMARK_ROTATION, expand=True)` as a function
of the un-rotated canvas size (lines 183-190); `fontExists` is TrueType
loadability per path (see `load_font`). -/
structure GfxEnv where
  decode : List Nat → Option Img
  textSize : String → PILFont → Nat → Nat × Nat
  rotatedSize : Nat × Nat → Nat × Nat
  fontExists : String → Bool

/-- The failures `add_watermark` can raise: `Image.open` failing on
undecodable bytes, and the JPEG encoder rejecting a zero-area image at
`final_image.save(...)` (line 234). -/
inductive WatermarkError where
  | decodeError
  | emptyImageError
deriving DecidableEq

/-- The value of `output_buffer` returned at line 237: a JPEG encoding
(`format='JPEG', quality=95`, line 234) of the flattened RGB image
(line 230), recorded with the data that determined what was drawn: the
resolved text, the font size, and every grid origin the rotated tile was
pasted at (line 220). -/
structure JpegImage where
  width : Nat
  height : Nat
  format : String
  quality : Nat
  mode : ImageMode
  text : String
  fontSize : Nat
  tiles : List (Int × Int)
deriving DecidableEq

/-- `add_watermark` after the text default has been resolved
(lines 111-237): decode, normalize orientation, convert to RGBA, derive
font size / stroke width / spacing, run the paste loops, composite, and
encode as JPEG.  The encode step fails on a zero-area raster. -/
def add_watermark_resolved (env : GfxEnv) (image_bytes : List Nat)
    (text : String) : Except WatermarkError JpegImage :=
  match env.decode image_bytes with
  | none => Except.error WatermarkError.decodeError
  | some opened =>
    let original_image := to_rgba (apply_exif_orientation opened)
    let width := original_image.width
    let height := original_image.height
    let font_size := get_font_size width height
    let stroke_width := stroke_width_of font_size
    let font := load_font env.fontExists font_size
    let ts := env.textSize text font stroke_width
    let padding := stroke_width + 2
    let rs := env.rotatedSize (ts.1 + padding * 2, ts.2 + padding * 2)
    let spacing_x := spacing_of rs.1 font_size
    let spacing_y := spacing_of rs.2 font_size
    let tiles := placements width height rs.1 rs.2 spacing_x spacing_y
    if width = 0 ∨ height = 0 then Except.error WatermarkError.emptyImageError
    else
      Except.ok
        { width := width, height := height, format := "JPEG", quality := 95,
          mode := ImageMode.RGB, text := text, fontSize := font_size,
          tiles := tiles }

/-- `add_watermark(image_bytes, watermark_text)` (lines 88-237). -/
def add_watermark (env : GfxEnv) (image_bytes : List Nat)
    (watermark_text : Option String) : Except WatermarkError JpegImage :=
  add_watermark_resolved env image_bytes (resolveText watermark_text)

/-! ## The HTTP boundary (`main.py`, lines 38-85) -/

/-- The two response shapes of `process_image`: a `StreamingResponse`
with a media type, or an `HTTPException` with a status code. -/
inductive ApiResponse where
  | streaming (media_type : String) (image : JpegImage)
  | httpError (status : Nat)
deriving DecidableEq

/-- Python `s.startswith(prefix)`: the prefix test on the character
sequences. -/
def py_startswith (s pre : String) : Bool :=
  pre.data.isPrefixOf s.data

/-- Line 59: `if not file.content_type or not
file.content_type.startswith("image/")`.  `none` models a missing
content type (falsy), and the empty string is falsy too — but
`"".startswith("image/")` is already false, so one prefix test
suffices. -/
def content_type_ok (content_type : Option String) : Bool :=
  match content_type with
  | none => false
  | some ct => py_startswith ct ("image/")

/-- `process_image` (lines 39-85): reject a non-image declared content
type with HTTP 400 (lines 59-63); otherwise call `add_watermark` and
stream the result as `image/jpeg` (lines 65-79); any exception from
processing becomes HTTP 500 (lines 81-85). -/
def process_image (env : GfxEnv) (content_type : Option String)
    (image_bytes : List Nat) (watermark : Option String) : ApiResponse :=
  if content_type_ok content_type then
    match add_watermark env image_bytes watermark with
    | Except.ok processed => ApiResponse.streaming ("image/jpeg") processed
    | Except.error _ => ApiResponse.httpError 500
  else ApiResponse.httpError 400

/-! ## Concrete environments and images for witnesses -/

/-- An environment whose decoder always yields a 4 × 5 RGB image with no
EXIF data, with simple deterministic measurement functions. -/
def sampleEnv : GfxEnv where
  decode := fun _ => some { width := 4, height := 5, mode := ImageMode.RGB,
                            exif := ExifData.noExif }
  textSize := fun _ _ _ => (7, 3)
  rotatedSize := fun wh => (wh.1 + 2, wh.2 + 2)
  fontExists := fun _ => false

/-- The output `add_watermark sampleEnv` produces (computed by
evaluation): font size 24, stroke width 1, text canvas 13 × 9, rotated
tile 15 × 11, margin 36, spacing 51 × 47, a single tile pasted at
(-15, -11). -/
def sampleOut : JpegImage :=
  { width := 4, height := 5, format := "JPEG", quality := 95,
    mode := ImageMode.RGB, text := "Sample", fontSize := 24,
    tiles := [(-15, -11)] }

/-- An environment whose decoder rejects every byte string. -/
def rejectEnv : GfxEnv where
  decode := fun _ => none
  textSize := fun _ _ _ => (7, 3)
  rotatedSize := fun wh => wh
  fontExists := fun _ => false

/-- An environment whose decoder yields a degenerate zero-width image. -/
def zeroEnv : GfxEnv where
  decode := fun _ => some { width := 0, height := 9, mode := ImageMode.RGB,
                            exif := ExifData.noExif }
  textSize := fun _ _ _ => (7, 3)
  rotatedSize := fun wh => wh
  fontExists := fun _ => false

/-- A 10 × 20 image carrying EXIF orientation 6. -/
def exifImg6 : Img :=
  { width := 10, height := 20, mode := ImageMode.RGB,
    exif := ExifData.entries (some 6) }

/-- An image whose EXIF access raises a caught exception type. -/
def brokenExifImg : Img :=
  { width := 10, height := 20, mode := ImageMode.RGB,
    exif := ExifData.raisesCaught }

/-- An environment whose decoder yields `brokenExifImg`. -/
def brokenExifEnv : GfxEnv where
  decode := fun _ => some brokenExifImg
  textSize := fun _ _ _ => (7, 3)
  rotatedSize := fun wh => wh
  fontExists := fun _ => false

/-! ## Loop lemmas: membership and interval coverage of the grids -/

/-- Unfolding equation for `gridAux` at positive fuel. -/
theorem gridAux_succ (limit : Int) (step : Nat) (fuel : Nat) (x : Int) :
    gridAux limit step (fuel + 1) x =
      if x < limit then x :: gridAux limit step fuel (x + step) else [] := rfl

/-- The coordinates produced by the `while` loop are exactly
`start + n * step` for those `n` that stay below `limit` (provided the
fuel covers the distance and the step is positive). -/
theorem mem_gridAux {limit : Int} {step : Nat} (hstep : 0 < step) :
    ∀ (fuel : Nat) (start z : Int), (limit - start).toNat ≤ fuel →
      (z ∈ gridAux limit step fuel start ↔
        ∃ n : Nat, z = start + n * step ∧ z < limit) := by
  intro fuel
  induction fuel with
  | zero =>
    intro start z hf
    have hls : limit ≤ start := by omega
    simp only [gridAux, List.not_mem_nil, false_iff]
    rintro ⟨n, rfl, hlt⟩
    have hk : (0 : Int) ≤ (n : Int) * (step : Int) := by positivity
    linarith
  | succ fuel ih =>
    intro start z hf
    by_cases h : start < limit
    · rw [gridAux_succ, if_pos h, List.mem_cons,
        ih (start + step) z (by omega)]
      constructor
      · rintro (rfl | ⟨n, hz, hlt⟩)
        · exact ⟨0, by simp, h⟩
        · exact ⟨n + 1, by rw [hz]; push_cast; ring, hlt⟩
      · rintro ⟨n, hz, hlt⟩
        match n with
        | 0 => left; simpa using hz
        | n + 1 =>
          right
          exact ⟨n, by rw [hz]; push_cast; ring, hlt⟩
    · rw [gridAux_succ, if_neg h]
      simp only [List.not_mem_nil, false_iff]
      rintro ⟨n, rfl, hlt⟩
      have hk : (0 : Int) ≤ (n : Int) * (step : Int) := by positivity
      have hls : limit ≤ start := by omega
      linarith

/-- Interval coverage: every point of `[start, limit)` lies in the
half-open step interval of some visited coordinate. -/
theorem gridAux_covers {limit : Int} {step : Nat} (hstep : 0 < step) :
    ∀ (fuel : Nat) (start t : Int), (limit - start).toNat ≤ fuel →
      start ≤ t → t < limit →
      ∃ z ∈ gridAux limit step fuel start, z ≤ t ∧ t < z + step := by
  intro fuel
  induction fuel with
  | zero =>
    intro start t hf hst htl
    exact absurd htl (by omega)
  | succ fuel ih =>
    intro start t hf hst htl
    have h : start < limit := lt_of_le_of_lt hst htl
    rw [gridAux_succ, if_pos h]
    by_cases hcase : t < start + step
    · exact ⟨start, List.mem_cons_self _ _, hst, hcase⟩
    · push_neg at hcase
      obtain ⟨z, hz, h1, h2⟩ := ih (start + step) t (by omega) hcase htl
      exact ⟨z, List.mem_cons_of_mem _ hz, h1, h2⟩

/-- Membership for `grid` (the loop with its canonical fuel). -/
theorem mem_grid {limit : Int} {step : Nat} (hstep : 0 < step)
    (start z : Int) :
    z ∈ grid limit step start ↔ ∃ n : Nat, z = start + n * step ∧ z < limit :=
  mem_gridAux hstep _ start z (le_refl _)

/-- Interval coverage for `grid`. -/
theorem grid_covers {limit : Int} {step : Nat} (hstep : 0 < step)
    {start t : Int} (hst : start ≤ t) (htl : t < limit) :
    ∃ z ∈ grid limit step start, z ≤ t ∧ t < z + step :=
  gridAux_covers hstep _ start t (le_refl _) hst htl

/-- Unfolding equation for `rowsAux` at positive fuel. -/
theorem rowsAux_succ (width rw sx : Nat) (limit : Int) (sy fuel : Nat)
    (y : Int) (row : Nat) :
    rowsAux width rw sx limit sy (fuel + 1) y row =
      (if y < limit then
        ((grid ((width : Int) + rw) sx
            (-(rw : Int) + ((row % 2) * (sx / 2) : Nat))).map fun x => (x, y))
          ++ rowsAux width rw sx limit sy fuel (y + sy) (row + 1)
      else []) := rfl

/-- The outer loop visits exactly the rows `y0 + r * sy` below `limit`,
each holding the x-run of `grid` started at the staggered offset of row
`row0 + r`. -/
theorem mem_rowsAux {width rw sx : Nat} {limit : Int} {sy : Nat}
    (hsy : 0 < sy) :
    ∀ (fuel : Nat) (y0 : Int) (row0 : Nat) (x y : Int),
      (limit - y0).toNat ≤ fuel →
      ((x, y) ∈ rowsAux width rw sx limit sy fuel y0 row0 ↔
        ∃ r : Nat, y = y0 + r * sy ∧ y < limit ∧
          x ∈ grid ((width : Int) + rw) sx
            (-(rw : Int) + (((row0 + r) % 2) * (sx / 2) : Nat))) := by
  intro fuel
  induction fuel with
  | zero =>
    intro y0 row0 x y hf
    simp only [rowsAux, List.not_mem_nil, false_iff]
    rintro ⟨r, rfl, hyl, _⟩
    have hk : (0 : Int) ≤ (r : Int) * (sy : Int) := by positivity
    have hls : limit ≤ y0 := by omega
    linarith
  | succ fuel ih =>
    intro y0 row0 x y hf
    by_cases h : y0 < limit
    · rw [rowsAux_succ, if_pos h, List.mem_append, List.mem_map,
        ih (y0 + sy) (row0 + 1) x y (by omega)]
      constructor
      · rintro (⟨x', hx', hpair⟩ | ⟨r, hy, hyl, hx⟩)
        · obtain ⟨hx1, hy1⟩ := Prod.mk.injEq .. ▸ hpair
          refine ⟨0, by simpa using hy1.symm, ?_, ?_⟩
          · omega
          · rw [Nat.add_zero]
            rw [hx1] at hx'
            exact hx'
        · refine ⟨r + 1, ?_, hyl, ?_⟩
          · rw [hy]; push_cast; ring
          · have : row0 + 1 + r = row0 + (r + 1) := by ring
            rw [this] at hx
            exact hx
      · rintro ⟨r, hy, hyl, hx⟩
        match r with
        | 0 =>
          left
          refine ⟨x, ?_, ?_⟩
          · rw [Nat.add_zero] at hx; exact hx
          · have : y = y0 := by simpa using hy
            rw [this]
        | r + 1 =>
          right
          refine ⟨r, by rw [hy]; push_cast; ring, hyl, ?_⟩
          have : row0 + (r + 1) = row0 + 1 + r := by ring
          rw [this] at hx
          exact hx
    · rw [rowsAux_succ, if_neg h]
      simp only [List.not_mem_nil, false_iff]
      rintro ⟨r, rfl, hyl, _⟩
      have hk : (0 : Int) ≤ (r : Int) * (sy : Int) := by positivity
      linarith

/-- Membership in `placements`: tile origins are exactly the staggered
grid points inside the extended bounds. -/
theorem mem_placements {w h rw rh sx sy : Nat} (hsy : 0 < sy)
    (x y : Int) :
    (x, y) ∈ placements w h rw rh sx sy ↔
      ∃ r : Nat, y = -(rh : Int) + r * sy ∧ y < (h : Int) + rh ∧
        x ∈ grid ((w : Int) + rw) sx
          (-(rw : Int) + ((r % 2) * (sx / 2) : Nat)) := by
  unfold placements
  rw [mem_rowsAux hsy (h + 2 * rh) (-(rh : Int)) 0 x y (by omega)]
  simp only [Nat.zero_add]

/-- Full arithmetic characterization of the tile origins. -/
theorem mem_placements_iff {w h rw rh sx sy : Nat} (hsx : 0 < sx)
    (hsy : 0 < sy) (x y : Int) :
    (x, y) ∈ placements w h rw rh sx sy ↔
      ∃ r n : Nat, y = -(rh : Int) + r * sy ∧ y < (h : Int) + rh ∧
        x = -(rw : Int) + ((r % 2) * (sx / 2) : Nat) + n * sx ∧
        x < (w : Int) + rw := by
  rw [mem_placements hsy]
  constructor
  · rintro ⟨r, hy, hyl, hx⟩
    obtain ⟨n, hxn, hxl⟩ := (mem_grid hsx _ x).mp hx
    exact ⟨r, n, hy, hyl, hxn, hxl⟩
  · rintro ⟨r, n, hy, hyl, hxn, hxl⟩
    exact ⟨r, hy, hyl, (mem_grid hsx _ x).mpr ⟨n, hxn, hxl⟩⟩

/-- Two distinct multiples of a step at least `dim` apart give disjoint
half-open intervals of length `dim`. -/
theorem no_overlap_1d {s : Int} {st dim : Nat} (hd : dim ≤ st)
    {n1 n2 : Nat} (hne : n1 ≠ n2) (t : Int) :
    ¬(s + n1 * st ≤ t ∧ t < s + n1 * st + dim ∧
      s + n2 * st ≤ t ∧ t < s + n2 * st + dim) := by
  rintro ⟨h1, h2, h3, h4⟩
  have hdim : (dim : Int) ≤ (st : Int) := by exact_mod_cast hd
  rcases Nat.lt_trichotomy n1 n2 with hlt | heq | hlt
  · have hstep : ((n1 : Int) + 1) * st ≤ (n2 : Int) * st := by
      have h1' : ((n1 : Int) + 1) ≤ (n2 : Int) := by exact_mod_cast hlt
      exact mul_le_mul_of_nonneg_right h1' (by positivity)
    have hexp : ((n1 : Int) + 1) * st = (n1 : Int) * st + st := by ring
    linarith
  · exact hne heq
  · have hstep : ((n2 : Int) + 1) * st ≤ (n1 : Int) * st := by
      have h1' : ((n2 : Int) + 1) ≤ (n1 : Int) := by exact_mod_cast hlt
      exact mul_le_mul_of_nonneg_right h1' (by positivity)
    have hexp : ((n2 : Int) + 1) * st = (n2 : Int) * st + st := by ring
    linarith

/-- `convert('RGBA')` keeps the width. -/
theorem to_rgba_width (img : Img) : (to_rgba img).width = img.width := by
  unfold to_rgba; split <;> rfl

/-- `convert('RGBA')` keeps the height. -/
theorem to_rgba_height (img : Img) : (to_rgba img).height = img.height := by
  unfold to_rgba; split <;> rfl

/-- A zero-area decode stays zero-area through orientation correction
and mode conversion (right-angle rotation at most swaps the
dimensions). -/
theorem degenerate_preserved (img : Img)
    (h : img.width = 0 ∨ img.height = 0) :
    (to_rgba (apply_exif_orientation img)).width = 0 ∨
      (to_rgba (apply_exif_orientation img)).height = 0 := by
  rw [to_rgba_width, to_rgba_height]
  unfold apply_exif_orientation rotate_expand
  split
  · rcases h with h | h
    · right; exact h
    · left; exact h
  · exact h

/-- EXIF states that select no rotation leave the image untouched. -/
theorem apply_exif_orientation_id (img : Img)
    (h : orientation_rotation img.exif = 0) :
    apply_exif_orientation img = img := by
  unfold apply_exif_orientation rotate_expand
  rw [h]
  simp

/-! ## Claim theorems -/

/-- C1: `get_font_size` returns the fixed large-image size 72 whenever
both width and height exceed 1000 (independently of any text, which the
resolver does not even receive); otherwise — including at the boundary
`min(width, height) = 1000` — it returns
`max(24, floor(min(width, height) / 8))`. -/
theorem claim_c1_font_size (width height : Nat) :
    (1000 < width → 1000 < height → get_font_size width height = 72) ∧
    (min width height ≤ 1000 →
      get_font_size width height = max 24 (min width height / 8)) := by
  constructor
  · intro hw hh
    unfold get_font_size SIZE_THRESHOLD
    rw [if_pos ⟨hw, hh⟩]
    rfl
  · intro hmin
    unfold get_font_size SIZE_THRESHOLD RELATIVE_FONT_DIVISOR MIN_FONT_SIZE
    rw [if_neg (by omega)]
    exact Nat.max_comm _ _

/-- Witness for C1 at a large image (1200 × 1001) and at the boundary
image (1000 × 2000, where `min = 1000` exactly). -/
theorem claim_c1_font_size_witness :
    get_font_size 1200 1001 = 72 ∧
    get_font_size 1000 2000 = max 24 (min 1000 2000 / 8) :=
  ⟨(claim_c1_font_size 1200 1001).1 (by decide) (by decide),
   (claim_c1_font_size 1000 2000).2 (by decide)⟩

/-- C2 (amended): for every image size and non-degenerate tile size the
tiler's grid (i) contains the base origin one full tile dimension before
the image origin on both axes, (ii) places every tile on the staggered
lattice in which every other row is shifted right by half the horizontal
spacing (rounded down), (iii) advances row origins in steps of the
vertical spacing whose half-open step intervals cover the whole band
from one tile height before the image to one tile height past it — and
likewise for the x-run of an even row — and (iv) overlaps every pixel of
the image with at least one tile *when the spacing equals the tile size*
(zero margin), including when the tile is larger than the image.  (With
the code's strictly positive margin the unconditional coverage clause of
the original claim fails; see `claim_c2_counterexample`.) -/
theorem claim_c2_grid (w h rw rh sx sy : Nat)
    (hrw : 0 < rw) (hrh : 0 < rh) (hsx : 0 < sx) (hsy : 0 < sy) :
    ((-(rw : Int), -(rh : Int)) ∈ placements w h rw rh sx sy) ∧
    (∀ x y : Int, (x, y) ∈ placements w h rw rh sx sy →
      ∃ r n : Nat, y = -(rh : Int) + r * sy ∧
        x = -(rw : Int) + ((r % 2) * (sx / 2) : Nat) + n * sx) ∧
    (∀ t : Int, -(rh : Int) ≤ t → t < (h : Int) + rh →
      ∃ z ∈ grid ((h : Int) + rh) sy (-(rh : Int)), z ≤ t ∧ t < z + sy) ∧
    (∀ t : Int, -(rw : Int) ≤ t → t < (w : Int) + rw →
      ∃ z ∈ grid ((w : Int) + rw) sx (-(rw : Int)), z ≤ t ∧ t < z + sx) ∧
    (sx = rw → sy = rh →
      ∀ px py : Int, 0 ≤ px → px < (w : Int) → 0 ≤ py → py < (h : Int) →
        ∃ p ∈ placements w h rw rh sx sy, covers_pixel p rw rh px py) := by
  refine ⟨?_, ?_, ?_, ?_, ?_⟩
  · rw [mem_placements_iff hsx hsy]
    refine ⟨0, 0, by simp, by omega, by simp, by omega⟩
  · intro x y hmem
    obtain ⟨r, n, hy, _, hx, _⟩ := (mem_placements_iff hsx hsy x y).mp hmem
    exact ⟨r, n, hy, hx⟩
  · intro t h1 h2
    exact grid_covers hsy h1 h2
  · intro t h1 h2
    exact grid_covers hsx h1 h2
  · intro hsxrw hsyrh px py hpx0 hpxw hpy0 hpyh
    rw [hsxrw] at hsx ⊢
    rw [hsyrh] at hsy ⊢
    obtain ⟨z, hz, hz1, hz2⟩ :=
      @grid_covers ((h : Int) + rh) rh hsy (-(rh : Int)) py (by omega) (by omega)
    obtain ⟨r, hzr, hzl⟩ := (mem_grid hsy _ z).mp hz
    have hoff : ((r % 2) * (rw / 2) : Nat) ≤ (rw : Int) := by
      rcases Nat.mod_two_eq_zero_or_one r with hp | hp <;>
        rw [hp] <;> push_cast <;> omega
    obtain ⟨x, hx, hx1, hx2⟩ :=
      @grid_covers ((w : Int) + rw) rw hsx
        (-(rw : Int) + ((r % 2) * (rw / 2) : Nat)) px (by omega) (by omega)
    refine ⟨(x, z), ?_, hx1, hx2, hz1, hz2⟩
    rw [mem_placements hsy]
    exact ⟨r, hzr, hzl, hx⟩

/-- Witness for C2: the base origin `(-1, -1)` is placed for a 3 × 3
image with a 1 × 1 tile at unit spacing. -/
theorem claim_c2_grid_witness :
    ((0 : Nat) < 1) ∧ ((-1, -1) : Int × Int) ∈ placements 3 3 1 1 1 1 :=
  ⟨by decide,
   by simpa using
     (claim_c2_grid 3 3 1 1 1 1 (by decide) (by decide) (by decide)
       (by decide)).1⟩

/-- Counterexample to C2 as stated: with the spacing the code actually
computes (tile dimension plus the margin `int(1.5 * font_size)`), a
200 × 200 image tiled with a 50 × 20 rotated tile (font size 25, margin
37, spacing 87 × 57) leaves pixel `(0, 10)` overlapped by no tile: the
rows sit at y = -20, 37, 94, 151, 208, and the band `0 ≤ y < 37`
between the first two rows is uncovered. -/
theorem claim_c2_counterexample :
    ¬ ∃ p ∈ tiler_placements 200 200 50 20, covers_pixel p 50 20 0 10 := by
  decide

/-- C3: every successful output of `add_watermark` is a JPEG encoding at
fixed quality 95 of an opaque RGB raster whose pixel dimensions equal
those of the orientation-corrected decoded input — watermarking never
changes pixel dimensions. -/
theorem claim_c3_output_shape (env : GfxEnv) (b : List Nat)
    (t : Option String) (out : JpegImage)
    (hok : add_watermark env b t = Except.ok out) :
    out.format = "JPEG" ∧ out.quality = 95 ∧ out.mode = ImageMode.RGB ∧
    ∃ img, env.decode b = some img ∧
      out.width = (apply_exif_orientation img).width ∧
      out.height = (apply_exif_orientation img).height := by
  unfold add_watermark add_watermark_resolved at hok
  cases hd : env.decode b with
  | none => rw [hd] at hok; exact absurd hok (by simp)
  | some img =>
    rw [hd] at hok
    dsimp only at hok
    split at hok
    · exact absurd hok (by simp)
    · injection hok with hout
      subst hout
      exact ⟨rfl, rfl, rfl, img, rfl, to_rgba_width _, to_rgba_height _⟩

/-- Witness for C3: `sampleEnv` processes to the concrete output
`sampleOut`, which the theorem shows has quality 95, RGB mode, and the
4 × 5 dimensions of the decoded image. -/
theorem claim_c3_output_shape_witness :
    add_watermark sampleEnv [] none = Except.ok sampleOut ∧
    (sampleOut.format = "JPEG" ∧ sampleOut.quality = 95 ∧
      sampleOut.mode = ImageMode.RGB ∧
      ∃ img, sampleEnv.decode [] = some img ∧
        sampleOut.width = (apply_exif_orientation img).width ∧
        sampleOut.height = (apply_exif_orientation img).height) :=
  ⟨rfl, claim_c3_output_shape sampleEnv [] none sampleOut rfl⟩

/-- C4: undecodable bytes make the compositor fail with a decode error
and a zero-area decode makes it fail with the encoder's empty-image
error — in both cases no output is produced — and the HTTP boundary
turns either processing failure into status 500, distinct from the
status 400 used for a wrong declared content type. -/
theorem claim_c4_error_handling (env : GfxEnv) (b : List Nat)
    (wm : Option String) :
    (env.decode b = none →
      add_watermark env b wm = Except.error WatermarkError.decodeError ∧
      ∀ ct, content_type_ok ct = true →
        process_image env ct b wm = ApiResponse.httpError 500) ∧
    (∀ img, env.decode b = some img → img.width = 0 ∨ img.height = 0 →
      add_watermark env b wm = Except.error WatermarkError.emptyImageError ∧
      ∀ ct, content_type_ok ct = true →
        process_image env ct b wm = ApiResponse.httpError 500) ∧
    (∀ ct, content_type_ok ct = false →
      process_image env ct b wm = ApiResponse.httpError 400) ∧
    (ApiResponse.httpError 500 ≠ ApiResponse.httpError 400) := by
  refine ⟨?_, ?_, ?_, by simp⟩
  · intro hd
    have herr : add_watermark env b wm = Except.error WatermarkError.decodeError := by
      unfold add_watermark add_watermark_resolved
      rw [hd]
    refine ⟨herr, fun ct hct => ?_⟩
    unfold process_image
    rw [hct, herr]
    rfl
  · intro img hd hz
    have herr : add_watermark env b wm =
        Except.error WatermarkError.emptyImageError := by
      unfold add_watermark add_watermark_resolved
      rw [hd]
      dsimp only
      rw [if_pos (degenerate_preserved img hz)]
    refine ⟨herr, fun ct hct => ?_⟩
    unfold process_image
    rw [hct, herr]
    rfl
  · intro ct hct
    unfold process_image
    rw [hct]
    rfl

/-- Witness for C4: a rejecting decoder yields the decode error and
HTTP 500; a zero-width decode yields the empty-image error; a
non-image content type yields HTTP 400. -/
theorem claim_c4_error_handling_witness :
    add_watermark rejectEnv [] none = Except.error WatermarkError.decodeError ∧
    process_image rejectEnv (some ("image/png")) [] none =
      ApiResponse.httpError 500 ∧
    add_watermark zeroEnv [] none =
      Except.error WatermarkError.emptyImageError ∧
    process_image rejectEnv (some ("text/plain")) [] none =
      ApiResponse.httpError 400 :=
  ⟨((claim_c4_error_handling rejectEnv [] none).1 rfl).1,
   ((claim_c4_error_handling rejectEnv [] none).1 rfl).2
     (some ("image/png")) (by decide),
   ((claim_c4_error_handling zeroEnv [] none).2.1
     { width := 0, height := 9, mode := ImageMode.RGB,
       exif := ExifData.noExif } rfl (Or.inl rfl)).1,
   (claim_c4_error_handling rejectEnv [] none).2.2.1
     (some ("text/plain")) (by decide)⟩

/-- C5: the orientation-normalization step rotates by 180 degrees for
EXIF orientation 3, by 270 degrees for 6, by 90 degrees for 8, and does
nothing for every other value, a missing `Orientation` key, absent EXIF
data, or an EXIF access that raises one of the caught exception types;
missing or malformed metadata never fails the request — the compositor
still produces output. -/
theorem claim_c5_exif_orientation (img : Img) :
    (img.exif = ExifData.entries (some 3) →
      apply_exif_orientation img = rotate_expand 180 img) ∧
    (img.exif = ExifData.entries (some 6) →
      apply_exif_orientation img = rotate_expand 270 img) ∧
    (img.exif = ExifData.entries (some 8) →
      apply_exif_orientation img = rotate_expand 90 img) ∧
    (∀ v : Nat, img.exif = ExifData.entries (some v) →
      v ≠ 3 → v ≠ 6 → v ≠ 8 → apply_exif_orientation img = img) ∧
    ((img.exif = ExifData.entries none ∨ img.exif = ExifData.noExif ∨
        img.exif = ExifData.raisesCaught) →
      apply_exif_orientation img = img) ∧
    (∀ (env : GfxEnv) (b : List Nat) (wm : Option String),
      env.decode b = some img →
      (img.exif = ExifData.noExif ∨ img.exif = ExifData.raisesCaught) →
      0 < img.width → 0 < img.height →
      ∃ o, add_watermark env b wm = Except.ok o) := by
  refine ⟨?_, ?_, ?_, ?_, ?_, ?_⟩
  · intro hx; unfold apply_exif_orientation orientation_rotation
    rw [hx]
    rfl
  · intro hx; unfold apply_exif_orientation orientation_rotation
    rw [hx]
    rfl
  · intro hx; unfold apply_exif_orientation orientation_rotation
    rw [hx]
    rfl
  · intro v hx h3 h6 h8
    apply apply_exif_orientation_id
    unfold orientation_rotation
    rw [hx]
    simp [h3, h6, h8]
  · intro hx
    apply apply_exif_orientation_id
    rcases hx with hx | hx | hx <;> rw [hx] <;> rfl
  · intro env b wm hd hx hw hh
    have hid : apply_exif_orientation img = img := by
      apply apply_exif_orientation_id
      rcases hx with hx | hx <;> rw [hx] <;> rfl
    have hcond : ¬ ((to_rgba (apply_exif_orientation img)).width = 0 ∨
        (to_rgba (apply_exif_orientation img)).height = 0) := by
      rw [hid, to_rgba_width, to_rgba_height]
      omega
    unfold add_watermark add_watermark_resolved
    rw [hd]
    dsimp only
    rw [if_neg hcond]
    exact ⟨_, rfl⟩

/-- Witness for C5: a 10 × 20 image with EXIF orientation 6 is rotated
by 270 degrees (dimensions swapped), and a broken-EXIF image is still
processed successfully. -/
theorem claim_c5_exif_orientation_witness :
    exifImg6.exif = ExifData.entries (some 6) ∧
    apply_exif_orientation exifImg6 = rotate_expand 270 exifImg6 ∧
    (∃ o, add_watermark brokenExifEnv [] none = Except.ok o) :=
  ⟨rfl, (claim_c5_exif_orientation exifImg6).2.1 rfl,
   (claim_c5_exif_orientation brokenExifImg).2.2.2.2.2 brokenExifEnv [] none
     rfl (Or.inr rfl) (by decide) (by decide)⟩

/-- C6: the grid spacing is the rotated tile's own rendered dimension
plus the font-derived margin — so it is at least the tile dimension and
strictly increases with the tile dimension (never a size-independent
constant) — and consequently no two distinct tile placements stamped on
the watermark layer overlap in any pixel. -/
theorem claim_c6_spacing_no_overlap :
    (∀ rdim fs : Nat, spacing_of rdim fs = rdim + watermark_margin fs) ∧
    (∀ rdim fs : Nat, rdim ≤ spacing_of rdim fs) ∧
    (∀ fs : Nat, StrictMono fun rdim => spacing_of rdim fs) ∧
    (∀ w h rw rh fs : Nat, 0 < rw → 0 < rh →
      ∀ p ∈ placements w h rw rh (spacing_of rw fs) (spacing_of rh fs),
      ∀ q ∈ placements w h rw rh (spacing_of rw fs) (spacing_of rh fs),
        p ≠ q → ∀ px py : Int,
          ¬(covers_pixel p rw rh px py ∧ covers_pixel q rw rh px py)) := by
  refine ⟨fun _ _ => rfl, ?_, ?_, ?_⟩
  · intro rdim fs
    unfold spacing_of
    omega
  · intro fs a b hab
    simp only [spacing_of]
    omega
  · intro w h rw rh fs hrw hrh p hp q hq hne px py
    have hsx : 0 < spacing_of rw fs := by unfold spacing_of; omega
    have hsy : 0 < spacing_of rh fs := by unfold spacing_of; omega
    have hrwsx : rw ≤ spacing_of rw fs := by unfold spacing_of; omega
    have hrhsy : rh ≤ spacing_of rh fs := by unfold spacing_of; omega
    obtain ⟨x1, y1⟩ := p
    obtain ⟨x2, y2⟩ := q
    obtain ⟨r1, n1, hy1, _, hx1, _⟩ :=
      (mem_placements_iff hsx hsy x1 y1).mp hp
    obtain ⟨r2, n2, hy2, _, hx2, _⟩ :=
      (mem_placements_iff hsx hsy x2 y2).mp hq
    rintro ⟨⟨ha1, ha2, ha3, ha4⟩, ⟨hb1, hb2, hb3, hb4⟩⟩
    by_cases hr : r1 = r2
    · subst hr
      have hxx : x1 ≠ x2 := by
        intro hxeq
        exact hne (Prod.ext hxeq (hy1.trans hy2.symm))
      have hnn : n1 ≠ n2 := by
        intro hneq
        apply hxx
        rw [hx1, hx2, hneq]
      exact no_overlap_1d hrwsx hnn px
        ⟨hx1 ▸ ha1, hx1 ▸ ha2, hx2 ▸ hb1, hx2 ▸ hb2⟩
    · exact @no_overlap_1d (-(rh : Int)) (spacing_of rh fs) rh hrhsy r1 r2 hr py
        ⟨hy1 ▸ ha3, hy1 ▸ ha4, hy2 ▸ hb3, hy2 ▸ hb4⟩

/-- Witness for C6: in a 3 × 3 image with a 1 × 1 tile at font size 1
(spacing 2), the placed tiles at `(-1, -1)` and `(1, -1)` share no
pixel. -/
theorem claim_c6_spacing_no_overlap_witness :
    ((0 : Nat) < 1) ∧
    ¬(covers_pixel (-1, -1) 1 1 0 0 ∧ covers_pixel (1, -1) 1 1 0 0) :=
  ⟨by decide,
   claim_c6_spacing_no_overlap.2.2.2 3 3 1 1 1 (by decide) (by decide)
     (-1, -1) (by decide) (1, -1) (by decide) (by decide) 0 0⟩

/-- C7: the compositor is deterministic — identical image bytes and
identical watermark text (under the same graphics library) produce the
identical output. -/
theorem claim_c7_determinism (env : GfxEnv) (b1 b2 : List Nat)
    (t1 t2 : Option String) (hb : b1 = b2) (ht : t1 = t2) :
    add_watermark env b1 t1 = add_watermark env b2 t2 := by
  rw [hb, ht]

/-- Witness for C7 at a concrete environment and input. -/
theorem claim_c7_determinism_witness :
    add_watermark sampleEnv [] none = add_watermark sampleEnv [] none :=
  claim_c7_determinism sampleEnv [] [] none none rfl rfl

/-- C8: an omitted watermark argument and an empty-string argument both
resolve to the same fixed non-empty default literal `"Sample"` before
rendering, so the compositor's behaviour on the two inputs is
identical. -/
theorem claim_c8_default_text :
    resolveText none = "Sample" ∧
    resolveText (some ("")) = "Sample" ∧
    DEFAULT_WATERMARK_TEXT = "Sample" ∧
    ("Sample" : String) ≠ "" ∧
    ∀ (env : GfxEnv) (b : List Nat),
      add_watermark env b none = add_watermark env b (some ("")) := by
  have hempty : resolveText (some ("")) = "Sample" := by
    simp only [resolveText]
    rw [if_pos (by decide)]
    rfl
  refine ⟨rfl, hempty, rfl, by decide, fun env b => ?_⟩
  unfold add_watermark
  rw [hempty]
  rfl

/-- C10: a watermark argument that is non-empty but consists only of
whitespace characters strips to the empty string, so it is substituted
by the default text `"Sample"` exactly as empty or absent text is — a
whitespace-only watermark is never rendered literally. -/
theorem claim_c10_whitespace_text (s : String) (_hne : s ≠ "")
    (hws : ∀ c ∈ s.data, isPySpace c = true) :
    resolveText (some s) = DEFAULT_WATERMARK_TEXT ∧
    ∀ (env : GfxEnv) (b : List Nat),
      add_watermark env b (some s) = add_watermark env b none := by
  have hstrip : pyStrip s = "" := by
    unfold pyStrip
    rw [List.dropWhile_eq_nil_iff.mpr hws]
    rfl
  have hres : resolveText (some s) = DEFAULT_WATERMARK_TEXT := by
    simp only [resolveText]
    rw [if_pos hstrip]
  refine ⟨hres, fun env b => ?_⟩
  unfold add_watermark
  rw [hres]
  rfl

/-- Witness for C10 at the one-space string. -/
theorem claim_c10_whitespace_text_witness :
    ((" " : String) ≠ "") ∧
    resolveText (some (" ")) = DEFAULT_WATERMARK_TEXT :=
  ⟨by decide,
   (claim_c10_whitespace_text (" ") (by decide) (by decide)).1⟩

/-- C9: `load_font` tries the candidate font paths in order and returns
the first that loads at the requested size; when every candidate fails
it returns the built-in default font — the search is total (the
function always produces a font, equal to the first-success search over
`font_paths`). -/
theorem claim_c9_font_search (fontExists : String → Bool) (size : Nat) :
    load_font fontExists size =
      (match font_paths.find? fontExists with
       | some p => PILFont.truetype p size
       | none => PILFont.load_default) := by
  by_cases h1 : fontExists ("arial.ttf") <;>
    by_cases h2 :
      fontExists ("/usr/share/fonts/truetype/dejavu/DejaVuSans.ttf") <;>
    by_cases h3 :
      fontExists ("/usr/share/fonts/truetype/dejavu/DejaVuSans-Bold.ttf") <;>
    simp [load_font, font_paths, tryFontPaths, List.find?, h1, h2, h3]
